import Mathlib

/-!
# ROI calculator: derived-state calculation engine

A shallow embedding of the derived-state calculation engine of the
Autonomous SOC ROI calculator: the field-derivation cascade
(`calculateComputedFields`, `handleInputChange`), the financial metrics
engine (`calculateROI`), and the value-category breakdown
(`calculateValueMetrics` in its two variants).  JavaScript numbers are
modelled by exact rationals; JavaScript rounding primitives are modelled
explicitly (`jsRound`, `jsCeil`).
-/

namespace ROICalc

/-- JavaScript Math.round: rounds to the nearest integer, halves toward
positive infinity. -/
def jsRound (x : ℚ) : ℤ := ⌊x + 1/2⌋

/-- JavaScript Math.ceil. -/
def jsCeil (x : ℚ) : ℤ := ⌈x⌉

/-- The base (user-persisted) subset of the input record. -/
structure BaseInputs where
  employeeCount : ℚ
  averageIncidentResponseTime : ℚ
  falsePositiveRate : ℚ
  pricePerSecurityIncident : ℚ
  legacySIEMPricePerGB : ℚ
  stellarXDRCostPerGB : ℚ
  logVolumePerIncident : ℚ
  switchFromLegacySIEM : Bool
deriving DecidableEq

/-- The default base configuration (the `baseInputs` constant of the
source; `logVolumePerIncident` embeds the source field named after the
log-volume-to-incident proportion, defaulting to 1.5). -/
def baseInputs : BaseInputs where
  employeeCount := 500
  averageIncidentResponseTime := 4
  falsePositiveRate := 90
  pricePerSecurityIncident := 3
  legacySIEMPricePerGB := 3
  stellarXDRCostPerGB := 2
  logVolumePerIncident := 3/2
  switchFromLegacySIEM := true

/-- The full input record (`CalculationInputs` in the source). -/
structure CalculationInputs where
  employeeCount : ℚ
  securityIncidentsPerMonth : ℚ
  averageIncidentResponseTime : ℚ
  falsePositiveRate : ℚ
  pricePerSecurityIncident : ℚ
  humanSOCAnalysts : ℚ
  humanSOCManager : ℚ
  humanSOCEngineer : ℚ
  humanSOCDirector : ℚ
  legacySIEMPricePerGB : ℚ
  stellarXDRCostPerGB : ℚ
  switchFromLegacySIEM : Bool
  logVolumePerIncident : ℚ
  monthlyLogVolumeGB : ℚ
  stellarXDRPlatformCosts : ℚ
  siemLicensingCosts : ℚ
deriving DecidableEq

/-- `calculateComputedFields`: derives the dependent fields from a base
config, exactly as the source helper does. -/
def calculateComputedFields (base : BaseInputs) : CalculationInputs :=
  let ratio : ℚ := 2400 / 500
  let securityIncidentsPerMonth : ℚ := (jsRound (base.employeeCount * ratio) : ℚ)
  let monthlyLogVolumeGB : ℚ := (jsRound (securityIncidentsPerMonth * base.logVolumePerIncident) : ℚ)
  let stellarXDRPlatformCosts : ℚ := monthlyLogVolumeGB * base.stellarXDRCostPerGB * 12
  let siemLicensingCosts : ℚ := monthlyLogVolumeGB * base.legacySIEMPricePerGB * 12
  { employeeCount := base.employeeCount
    securityIncidentsPerMonth := securityIncidentsPerMonth
    averageIncidentResponseTime := base.averageIncidentResponseTime
    falsePositiveRate := base.falsePositiveRate
    pricePerSecurityIncident := base.pricePerSecurityIncident
    humanSOCAnalysts := (jsCeil (securityIncidentsPerMonth / 1000) : ℚ)
    humanSOCManager := (jsCeil (securityIncidentsPerMonth / 3000) : ℚ)
    humanSOCEngineer := (jsCeil (securityIncidentsPerMonth / 3000) : ℚ)
    humanSOCDirector := (jsCeil (securityIncidentsPerMonth / 6000) : ℚ)
    legacySIEMPricePerGB := base.legacySIEMPricePerGB
    stellarXDRCostPerGB := base.stellarXDRCostPerGB
    switchFromLegacySIEM := base.switchFromLegacySIEM
    logVolumePerIncident := base.logVolumePerIncident
    monthlyLogVolumeGB := monthlyLogVolumeGB
    stellarXDRPlatformCosts := stellarXDRPlatformCosts
    siemLicensingCosts := siemLicensingCosts }

/-- `defaultInputs = calculateComputedFields(baseInputs)`. -/
def defaultInputs : CalculationInputs := calculateComputedFields baseInputs

/-- The result record (`CalculationResults` in the source). -/
structure CalculationResults where
  humanSOCTotalCost : ℚ
  autonomousSOCTotalCost : ℚ
  adjustedAnnualSOCCost : ℚ
  platformSavings : ℚ
  annualSavings : ℚ
  roiPercentage : ℚ
  paybackPeriod : ℚ
  efficiencyImprovement : ℚ
  incidentResponseImprovement : ℚ
deriving DecidableEq

/-- `calculateEfficiencyImprovement` (inner helper of `calculateROI`). -/
def calculateEfficiencyImprovement (inputs : CalculationInputs) : ℚ :=
  let baseEfficiency : ℚ := 38
  let falsePositiveImpact : ℚ := min (inputs.falsePositiveRate * 0.2) 15
  let responseTimeImpact : ℚ := min (inputs.averageIncidentResponseTime * 3) 25
  let oneTiBInGB : ℚ := 1024
  let excessLogVolume : ℚ := max 0 (inputs.monthlyLogVolumeGB - oneTiBInGB)
  let logVolumeImpact : ℚ := min (excessLogVolume * 0.001) 15
  let totalEfficiency : ℚ := baseEfficiency + falsePositiveImpact + responseTimeImpact + logVolumeImpact
  min totalEfficiency 80

/-- `calculateIncidentResponseImprovement` (inner helper of `calculateROI`). -/
def calculateIncidentResponseImprovement (inputs : CalculationInputs) : ℚ :=
  let baseImprovement : ℚ := 45
  let responseTimeImpact : ℚ := min (inputs.averageIncidentResponseTime * 2) 15
  let falsePositiveImpact : ℚ := min (inputs.falsePositiveRate * 0.15) 8
  let totalImprovement : ℚ := baseImprovement + responseTimeImpact + falsePositiveImpact
  min totalImprovement 80

/-- `calculateROI`: the financial-comparison engine. -/
def calculateROI (inputs : CalculationInputs) : CalculationResults :=
  let analystSalary : ℚ := 85000
  let managerSalary : ℚ := 120000
  let engineerSalary : ℚ := 150000
  let directorSalary : ℚ := 200000
  let humanSOCPersonnelCost : ℚ :=
    inputs.humanSOCAnalysts * analystSalary +
    inputs.humanSOCManager * managerSalary +
    inputs.humanSOCEngineer * engineerSalary +
    inputs.humanSOCDirector * directorSalary
  let humanSOCTotalCost : ℚ := humanSOCPersonnelCost + inputs.siemLicensingCosts
  let autonomousSOCMonthlyCost : ℚ := inputs.securityIncidentsPerMonth * inputs.pricePerSecurityIncident
  let autonomousSOCAnnualCost : ℚ := autonomousSOCMonthlyCost * 12
  let efficiencyImprovement : ℚ := calculateEfficiencyImprovement inputs
  let incidentResponseImprovement : ℚ := calculateIncidentResponseImprovement inputs
  let adjustedAnnualSOCCost : ℚ := humanSOCTotalCost * (1 - efficiencyImprovement / 100)
  let platformSavings : ℚ := inputs.siemLicensingCosts - inputs.stellarXDRPlatformCosts
  let annualSavings : ℚ := humanSOCTotalCost - (adjustedAnnualSOCCost + autonomousSOCAnnualCost) + platformSavings
  let roiPercentage : ℚ := if autonomousSOCAnnualCost = 0 then 0 else annualSavings / autonomousSOCAnnualCost * 100
  let paybackPeriod : ℚ := 0
  { humanSOCTotalCost := humanSOCTotalCost
    autonomousSOCTotalCost := autonomousSOCAnnualCost
    adjustedAnnualSOCCost := adjustedAnnualSOCCost
    platformSavings := platformSavings
    annualSavings := annualSavings
    roiPercentage := roiPercentage
    paybackPeriod := paybackPeriod
    efficiencyImprovement := efficiencyImprovement
    incidentResponseImprovement := incidentResponseImprovement }

/-- Names of the editable fields of the input record. -/
inductive FieldName where
  | employeeCount
  | securityIncidentsPerMonth
  | averageIncidentResponseTime
  | falsePositiveRate
  | pricePerSecurityIncident
  | humanSOCAnalysts
  | humanSOCManager
  | humanSOCEngineer
  | humanSOCDirector
  | legacySIEMPricePerGB
  | stellarXDRCostPerGB
  | switchFromLegacySIEM
  | logVolumePerIncident
  | monthlyLogVolumeGB
  | stellarXDRPlatformCosts
  | siemLicensingCosts
deriving DecidableEq

/-- The value carried by an edit: numeric or boolean. -/
inductive FieldValue where
  | num (q : ℚ)
  | flag (b : Bool)
deriving DecidableEq

/-- JavaScript Number() coercion as applied to an edit value. -/
def FieldValue.toNumber : FieldValue → ℚ
  | .num q => q
  | .flag b => if b then 1 else 0

/-- JavaScript truthiness as applied to an edit value. -/
def FieldValue.toFlag : FieldValue → Bool
  | .num q => decide (q ≠ 0)
  | .flag b => b

/-- Step 1 of `handleInputChange`: the raw single-field assignment
performed by the spread-plus-computed-key update. -/
def setField (prev : CalculationInputs) (field : FieldName) (value : FieldValue) : CalculationInputs :=
  match field with
  | .employeeCount => { prev with employeeCount := value.toNumber }
  | .securityIncidentsPerMonth => { prev with securityIncidentsPerMonth := value.toNumber }
  | .averageIncidentResponseTime => { prev with averageIncidentResponseTime := value.toNumber }
  | .falsePositiveRate => { prev with falsePositiveRate := value.toNumber }
  | .pricePerSecurityIncident => { prev with pricePerSecurityIncident := value.toNumber }
  | .humanSOCAnalysts => { prev with humanSOCAnalysts := value.toNumber }
  | .humanSOCManager => { prev with humanSOCManager := value.toNumber }
  | .humanSOCEngineer => { prev with humanSOCEngineer := value.toNumber }
  | .humanSOCDirector => { prev with humanSOCDirector := value.toNumber }
  | .legacySIEMPricePerGB => { prev with legacySIEMPricePerGB := value.toNumber }
  | .stellarXDRCostPerGB => { prev with stellarXDRCostPerGB := value.toNumber }
  | .switchFromLegacySIEM => { prev with switchFromLegacySIEM := value.toFlag }
  | .logVolumePerIncident => { prev with logVolumePerIncident := value.toNumber }
  | .monthlyLogVolumeGB => { prev with monthlyLogVolumeGB := value.toNumber }
  | .stellarXDRPlatformCosts => { prev with stellarXDRPlatformCosts := value.toNumber }
  | .siemLicensingCosts => { prev with siemLicensingCosts := value.toNumber }

/-- `handleInputChange`: the single-edit field-derivation cascade.  The
raw assignment happens first, then the cascade block guarded by the
edited field name, mirroring the sequential guards of the source. -/
def handleInputChange (prev : CalculationInputs) (field : FieldName) (value : FieldValue) : CalculationInputs :=
  let n0 := setField prev field value
  let n1 :=
    if field = FieldName.employeeCount then
      let ratio : ℚ := defaultInputs.securityIncidentsPerMonth / defaultInputs.employeeCount
      let newIncidents : ℚ := (jsRound (value.toNumber * ratio) : ℚ)
      let newLogVolume : ℚ := (jsRound (newIncidents * n0.logVolumePerIncident) : ℚ)
      { n0 with
        securityIncidentsPerMonth := newIncidents
        humanSOCAnalysts := (jsCeil (newIncidents / 1000) : ℚ)
        humanSOCManager := (jsCeil (newIncidents / 3000) : ℚ)
        humanSOCEngineer := (jsCeil (newIncidents / 3000) : ℚ)
        humanSOCDirector := (jsCeil (newIncidents / 6000) : ℚ)
        monthlyLogVolumeGB := newLogVolume
        stellarXDRPlatformCosts := newLogVolume * n0.stellarXDRCostPerGB * 12
        siemLicensingCosts := newLogVolume * n0.legacySIEMPricePerGB * 12 }
    else n0
  let n2 :=
    if field = FieldName.securityIncidentsPerMonth then
      let incidents : ℚ := value.toNumber
      let ratio : ℚ := defaultInputs.securityIncidentsPerMonth / defaultInputs.employeeCount
      let newLogVolume : ℚ := (jsRound (incidents * n1.logVolumePerIncident) : ℚ)
      { n1 with
        employeeCount := (jsRound (incidents / ratio) : ℚ)
        humanSOCAnalysts := (jsCeil (incidents / 1000) : ℚ)
        humanSOCManager := (jsCeil (incidents / 3000) : ℚ)
        humanSOCEngineer := (jsCeil (incidents / 3000) : ℚ)
        humanSOCDirector := (jsCeil (incidents / 6000) : ℚ)
        monthlyLogVolumeGB := newLogVolume
        stellarXDRPlatformCosts := newLogVolume * n1.stellarXDRCostPerGB * 12
        siemLicensingCosts := newLogVolume * n1.legacySIEMPricePerGB * 12 }
    else n1
  let n3 :=
    if field = FieldName.logVolumePerIncident then
      let newLogVolume : ℚ := (jsRound (n2.securityIncidentsPerMonth * value.toNumber) : ℚ)
      { n2 with
        monthlyLogVolumeGB := newLogVolume
        stellarXDRPlatformCosts := newLogVolume * n2.stellarXDRCostPerGB * 12
        siemLicensingCosts := newLogVolume * n2.legacySIEMPricePerGB * 12 }
    else n2
  let n4 :=
    if field = FieldName.stellarXDRCostPerGB then
      { n3 with stellarXDRPlatformCosts := n3.monthlyLogVolumeGB * value.toNumber * 12 }
    else n3
  let n5 :=
    if field = FieldName.legacySIEMPricePerGB then
      { n4 with siemLicensingCosts := n4.monthlyLogVolumeGB * value.toNumber * 12 }
    else n4
  n5

/-- The ten value-metric contributions of the primary variant of
`calculateValueMetrics`. -/
structure ValueMetrics where
  falsePositiveReduction : ℚ
  riskReduction : ℚ
  productivityImprovement : ℚ
  incidentResponseTime : ℚ
  analystRetention : ℚ
  complianceEfficiency : ℚ
  threatIntelligence : ℚ
  automationValue : ℚ
  stressReduction : ℚ
  shiftCoverage : ℚ
deriving DecidableEq

/-- `calculateValueMetrics` (primary ten-category variant). -/
def calculateValueMetrics (inputs : CalculationInputs) : ValueMetrics :=
  let baseAnalystSalary : ℚ := 85000
  let analystHoursPerYear : ℚ := 2080
  let analystHourlyRate : ℚ := baseAnalystSalary / analystHoursPerYear
  let currentFalsePositives : ℚ := inputs.securityIncidentsPerMonth * (inputs.falsePositiveRate / 100) * 12
  let reducedFalsePositives : ℚ := inputs.securityIncidentsPerMonth * 0.05 * 12
  let falsePositiveReduction : ℚ := (currentFalsePositives - reducedFalsePositives) * 2 * analystHourlyRate
  let riskReductionPerIncident : ℚ := 5000
  let riskReduction : ℚ := inputs.securityIncidentsPerMonth * 12 * riskReductionPerIncident * 0.3
  let productivityHoursSaved : ℚ := inputs.humanSOCAnalysts * analystHoursPerYear * 0.4
  let productivityImprovement : ℚ := productivityHoursSaved * analystHourlyRate * 1.5
  let timeReduction : ℚ := inputs.averageIncidentResponseTime * 0.85
  let incidentResponseTime : ℚ := inputs.securityIncidentsPerMonth * 12 * timeReduction * analystHourlyRate * 2
  let turnoverCost : ℚ := baseAnalystSalary * 0.5
  let analystRetention : ℚ := inputs.humanSOCAnalysts * turnoverCost * 0.6
  let complianceHoursPerYear : ℚ := inputs.humanSOCAnalysts * 200
  let complianceEfficiency : ℚ := complianceHoursPerYear * analystHourlyRate * 0.7
  let threatIntelligence : ℚ := inputs.employeeCount * 50
  let automationHours : ℚ := inputs.humanSOCAnalysts * analystHoursPerYear * 0.3
  let automationValue : ℚ := automationHours * analystHourlyRate
  let stressReductionValue : ℚ := inputs.humanSOCAnalysts * 15000
  let shiftCoverageValue : ℚ := inputs.humanSOCAnalysts * 20000
  { falsePositiveReduction := falsePositiveReduction
    riskReduction := riskReduction
    productivityImprovement := productivityImprovement
    incidentResponseTime := incidentResponseTime
    analystRetention := analystRetention
    complianceEfficiency := complianceEfficiency
    threatIntelligence := threatIntelligence
    automationValue := automationValue
    stressReduction := stressReductionValue
    shiftCoverage := shiftCoverageValue }

/-- `totalValue` for the primary variant: the sum of the metric object
values in insertion order. -/
def totalValue (m : ValueMetrics) : ℚ :=
  m.falsePositiveReduction + m.riskReduction + m.productivityImprovement +
  m.incidentResponseTime + m.analystRetention + m.complianceEfficiency +
  m.threatIntelligence + m.automationValue + m.stressReduction + m.shiftCoverage

/-- One entry of the value-category breakdown. -/
structure ValueCategory where
  name : String
  value : ℚ
  description : String
deriving DecidableEq

/-- The stable descending-by-value ordering of the breakdown lists:
the JavaScript stable sort with comparator on values, modelled as a
stable insertion sort on the non-strict descending relation. -/
def sortByValueDesc (l : List ValueCategory) : List ValueCategory :=
  List.insertionSort (fun a b => b.value ≤ a.value) l

/-- `valueCategories` (primary variant): the named entries, sorted by
descending value. -/
def valueCategories (inputs : CalculationInputs) : List ValueCategory :=
  let m := calculateValueMetrics inputs
  sortByValueDesc
    [ { name := "False Positive Reduction", value := m.falsePositiveReduction,
        description := "Reduced analyst burnout and wasted time" },
      { name := "Risk Reduction", value := m.riskReduction,
        description := "Prevented incident escalation costs" },
      { name := "Productivity Improvement", value := m.productivityImprovement,
        description := "Analysts focus on high-value tasks" },
      { name := "Faster Response Time", value := m.incidentResponseTime,
        description := "Reduced incident impact and costs" },
      { name := "Analyst Retention", value := m.analystRetention,
        description := "Reduced turnover and training costs" },
      { name := "Compliance Efficiency", value := m.complianceEfficiency,
        description := "Streamlined compliance processes" },
      { name := "Threat Intelligence", value := m.threatIntelligence,
        description := "Better threat detection and prevention" },
      { name := "Automation Value", value := m.automationValue,
        description := "Automated repetitive tasks" },
      { name := "Stress Reduction", value := m.stressReduction,
        description := "Improved analyst well-being and decision making" },
      { name := "24/7 Coverage", value := m.shiftCoverage,
        description := "Continuous monitoring without shift premiums" } ]

/-- The eight value-metric contributions of the alternate variant of
`calculateValueMetrics`. -/
structure ValueMetricsAlt where
  falsePositiveReduction : ℚ
  riskReduction : ℚ
  productivityImprovement : ℚ
  incidentResponseTime : ℚ
  analystRetention : ℚ
  complianceEfficiency : ℚ
  stressReduction : ℚ
  shiftCoverage : ℚ
deriving DecidableEq

/-- `calculateValueMetrics` (alternate eight-category variant, which
discounts false positives in the risk and response-time formulas). -/
def calculateValueMetricsAlt (inputs : CalculationInputs) : ValueMetricsAlt :=
  let baseAnalystSalary : ℚ := 85000
  let analystHoursPerYear : ℚ := 2080
  let analystHourlyRate : ℚ := baseAnalystSalary / analystHoursPerYear
  let currentFalsePositives : ℚ := inputs.securityIncidentsPerMonth * (inputs.falsePositiveRate / 100) * 12
  let reducedFalsePositives : ℚ := inputs.securityIncidentsPerMonth * 0.05 * 12
  let falsePositiveReduction : ℚ := (currentFalsePositives - reducedFalsePositives) * 2 * analystHourlyRate
  let riskReductionPerIncident : ℚ := 5000
  let genuineIncidentsPerMonth : ℚ := inputs.securityIncidentsPerMonth * (1 - inputs.falsePositiveRate / 100)
  let riskReduction : ℚ := genuineIncidentsPerMonth * 12 * riskReductionPerIncident * 0.3
  let productivityHoursSaved : ℚ := inputs.humanSOCAnalysts * analystHoursPerYear * 0.4
  let productivityImprovement : ℚ := productivityHoursSaved * analystHourlyRate * 1.5
  let truePositivesPerMonth : ℚ := inputs.securityIncidentsPerMonth * (1 - inputs.falsePositiveRate / 100)
  let falsePositivesPerMonth : ℚ := inputs.securityIncidentsPerMonth * (inputs.falsePositiveRate / 100)
  let truePositiveTimeSavings : ℚ :=
    truePositivesPerMonth * 12 * inputs.averageIncidentResponseTime * 0.85 * analystHourlyRate
  let falsePositiveInvestigationTime : ℚ := 1
  let falsePositiveTimeSavings : ℚ :=
    falsePositivesPerMonth * 12 * falsePositiveInvestigationTime * 0.1 * analystHourlyRate
  let incidentResponseTime : ℚ := truePositiveTimeSavings + falsePositiveTimeSavings
  let turnoverCost : ℚ := baseAnalystSalary * 0.5
  let analystRetention : ℚ := inputs.humanSOCAnalysts * turnoverCost * 0.6
  let complianceHoursPerYear : ℚ := inputs.humanSOCAnalysts * 200
  let complianceEfficiency : ℚ := complianceHoursPerYear * analystHourlyRate * 0.7
  let stressReductionValue : ℚ := inputs.humanSOCAnalysts * 15000
  let shiftCoverageValue : ℚ := inputs.humanSOCAnalysts * 20000
  { falsePositiveReduction := falsePositiveReduction
    riskReduction := riskReduction
    productivityImprovement := productivityImprovement
    incidentResponseTime := incidentResponseTime
    analystRetention := analystRetention
    complianceEfficiency := complianceEfficiency
    stressReduction := stressReductionValue
    shiftCoverage := shiftCoverageValue }

/-- `totalValue` for the alternate variant. -/
def totalValueAlt (m : ValueMetricsAlt) : ℚ :=
  m.falsePositiveReduction + m.riskReduction + m.productivityImprovement +
  m.incidentResponseTime + m.analystRetention + m.complianceEfficiency +
  m.stressReduction + m.shiftCoverage

/-- `valueCategories` (alternate variant): the named entries, sorted by
descending value. -/
def valueCategoriesAlt (inputs : CalculationInputs) : List ValueCategory :=
  let m := calculateValueMetricsAlt inputs
  sortByValueDesc
    [ { name := "False Positive Reduction", value := m.falsePositiveReduction,
        description := "Reduced analyst burnout and wasted time" },
      { name := "Risk Reduction", value := m.riskReduction,
        description := "Prevented incident escalation costs" },
      { name := "Productivity Improvement", value := m.productivityImprovement,
        description := "Analysts focus on high-value tasks" },
      { name := "Faster Response Time", value := m.incidentResponseTime,
        description := "Reduced incident impact and costs" },
      { name := "Analyst Retention", value := m.analystRetention,
        description := "Reduced turnover and training costs" },
      { name := "Compliance Efficiency", value := m.complianceEfficiency,
        description := "Streamlined compliance processes" },
      { name := "Stress Reduction", value := m.stressReduction,
        description := "Improved analyst well-being and decision making" },
      { name := "24/7 Coverage", value := m.shiftCoverage,
        description := "Continuous monitoring without shift premiums" } ]

/-! ## Helper lemmas -/

lemma ceil_as_floor (x : ℚ) : ⌈x⌉ = -⌊-x⌋ := by
  rw [← Int.ceil_neg, neg_neg]

lemma jsRound_le (x : ℚ) : (jsRound x : ℚ) ≤ x + 1/2 := by
  unfold jsRound
  exact Int.floor_le (x + 1/2)

lemma lt_jsRound (x : ℚ) : x - 1/2 < (jsRound x : ℚ) := by
  unfold jsRound
  have h := Int.sub_one_lt_floor (x + 1/2)
  linarith

lemma mem_sortByValueDesc {c : ValueCategory} {l : List ValueCategory} :
    c ∈ sortByValueDesc l ↔ c ∈ l :=
  (List.perm_insertionSort _ l).mem_iff

lemma sum_map_sortByValueDesc (f : ValueCategory → ℚ) (l : List ValueCategory) :
    ((sortByValueDesc l).map f).sum = (l.map f).sum :=
  ((List.perm_insertionSort _ l).map f).sum_eq

/-! ## Claim theorems -/

/-- Claim C1: for every input record, the computed `efficiencyImprovement`
equals `min(80, 38 + min(falsePositiveRate * 0.2, 15) +
min(averageIncidentResponseTime * 3, 25) +
min(max(0, monthlyLogVolumeGB - 1024) * 0.001, 15))`. -/
theorem c1_efficiency_improvement_formula (i : CalculationInputs) :
    (calculateROI i).efficiencyImprovement =
      min 80 (38 + min (i.falsePositiveRate * 0.2) 15 +
        min (i.averageIncidentResponseTime * 3) 25 +
        min (max 0 (i.monthlyLogVolumeGB - 1024) * 0.001) 15) := by
  show calculateEfficiencyImprovement i = _
  unfold calculateEfficiencyImprovement
  rw [min_comm]

/-- Claim C3: deriving the full input record from the default base
configuration yields incidents 2400, staffing 3/1/1/1, log volume 3600 GB,
platform costs 86400 and SIEM licensing costs 129600, and the
employee-to-incident ratio is the fixed constant 2400/500. -/
theorem c3_default_derivation :
    defaultInputs.employeeCount = 500 ∧
    defaultInputs.securityIncidentsPerMonth = 2400 ∧
    defaultInputs.humanSOCAnalysts = 3 ∧
    defaultInputs.humanSOCManager = 1 ∧
    defaultInputs.humanSOCEngineer = 1 ∧
    defaultInputs.humanSOCDirector = 1 ∧
    defaultInputs.monthlyLogVolumeGB = 3600 ∧
    defaultInputs.stellarXDRPlatformCosts = 86400 ∧
    defaultInputs.siemLicensingCosts = 129600 ∧
    defaultInputs.securityIncidentsPerMonth / defaultInputs.employeeCount = 2400 / 500 := by
  norm_num [defaultInputs, calculateComputedFields, baseInputs, jsRound, jsCeil, ceil_as_floor]

/-- Claim C7: an edit of `stellarXDRCostPerGB` to `v` stores `v`, recomputes
`stellarXDRPlatformCosts = monthlyLogVolumeGB * v * 12`, and leaves every
other field of the record unchanged. -/
theorem c7_xdr_cost_edit_frame (i : CalculationInputs) (v : ℚ) :
    (handleInputChange i FieldName.stellarXDRCostPerGB (FieldValue.num v)).stellarXDRCostPerGB = v ∧
    (handleInputChange i FieldName.stellarXDRCostPerGB (FieldValue.num v)).stellarXDRPlatformCosts
      = i.monthlyLogVolumeGB * v * 12 ∧
    (handleInputChange i FieldName.stellarXDRCostPerGB (FieldValue.num v)).employeeCount = i.employeeCount ∧
    (handleInputChange i FieldName.stellarXDRCostPerGB (FieldValue.num v)).securityIncidentsPerMonth
      = i.securityIncidentsPerMonth ∧
    (handleInputChange i FieldName.stellarXDRCostPerGB (FieldValue.num v)).averageIncidentResponseTime
      = i.averageIncidentResponseTime ∧
    (handleInputChange i FieldName.stellarXDRCostPerGB (FieldValue.num v)).falsePositiveRate
      = i.falsePositiveRate ∧
    (handleInputChange i FieldName.stellarXDRCostPerGB (FieldValue.num v)).pricePerSecurityIncident
      = i.pricePerSecurityIncident ∧
    (handleInputChange i FieldName.stellarXDRCostPerGB (FieldValue.num v)).humanSOCAnalysts
      = i.humanSOCAnalysts ∧
    (handleInputChange i FieldName.stellarXDRCostPerGB (FieldValue.num v)).humanSOCManager
      = i.humanSOCManager ∧
    (handleInputChange i FieldName.stellarXDRCostPerGB (FieldValue.num v)).humanSOCEngineer
      = i.humanSOCEngineer ∧
    (handleInputChange i FieldName.stellarXDRCostPerGB (FieldValue.num v)).humanSOCDirector
      = i.humanSOCDirector ∧
    (handleInputChange i FieldName.stellarXDRCostPerGB (FieldValue.num v)).legacySIEMPricePerGB
      = i.legacySIEMPricePerGB ∧
    (handleInputChange i FieldName.stellarXDRCostPerGB (FieldValue.num v)).switchFromLegacySIEM
      = i.switchFromLegacySIEM ∧
    (handleInputChange i FieldName.stellarXDRCostPerGB (FieldValue.num v)).logVolumePerIncident
      = i.logVolumePerIncident ∧
    (handleInputChange i FieldName.stellarXDRCostPerGB (FieldValue.num v)).monthlyLogVolumeGB
      = i.monthlyLogVolumeGB ∧
    (handleInputChange i FieldName.stellarXDRCostPerGB (FieldValue.num v)).siemLicensingCosts
      = i.siemLicensingCosts :=
  ⟨rfl, rfl, rfl, rfl, rfl, rfl, rfl, rfl, rfl, rfl, rfl, rfl, rfl, rfl, rfl, rfl⟩

/-- Claim C9: two input records differing only in `switchFromLegacySIEM`
produce identical result records and identical value-category breakdowns
(in both variants): the flag influences no computed output. -/
theorem c9_switch_flag_noninterference (i : CalculationInputs) (b₁ b₂ : Bool) :
    calculateROI { i with switchFromLegacySIEM := b₁ }
      = calculateROI { i with switchFromLegacySIEM := b₂ } ∧
    valueCategories { i with switchFromLegacySIEM := b₁ }
      = valueCategories { i with switchFromLegacySIEM := b₂ } ∧
    valueCategoriesAlt { i with switchFromLegacySIEM := b₁ }
      = valueCategoriesAlt { i with switchFromLegacySIEM := b₂ } :=
  ⟨rfl, rfl, rfl⟩

/-- Claim C10: for non-negative response time and false-positive rate, the
incident-response improvement never exceeds 68 (the component caps
45 + 15 + 8), so the overall cap of 80 is never attained. -/
theorem c10_incident_response_cap (i : CalculationInputs)
    (h1 : 0 ≤ i.averageIncidentResponseTime) (h2 : 0 ≤ i.falsePositiveRate) :
    (calculateROI i).incidentResponseImprovement ≤ 68 := by
  show calculateIncidentResponseImprovement i ≤ 68
  unfold calculateIncidentResponseImprovement
  have t1 : min (i.averageIncidentResponseTime * 2) 15 ≤ 15 := min_le_right _ _
  have t2 : min (i.falsePositiveRate * 0.15) 8 ≤ 8 := min_le_right _ _
  have t3 := min_le_left (45 + min (i.averageIncidentResponseTime * 2) 15 +
    min (i.falsePositiveRate * 0.15) 8) 80
  linarith

/-- Witness for C10 at the default input record. -/
theorem c10_witness : (calculateROI defaultInputs).incidentResponseImprovement ≤ 68 :=
  c10_incident_response_cap defaultInputs
    (by norm_num [defaultInputs, calculateComputedFields, baseInputs])
    (by norm_num [defaultInputs, calculateComputedFields, baseInputs])

/-- An input record with zero human-SOC cost structure balanced so that the
annual savings vanish while the autonomous-SOC annual cost is 1656. -/
def c2Input : CalculationInputs where
  employeeCount := 0
  securityIncidentsPerMonth := 138
  averageIncidentResponseTime := 0
  falsePositiveRate := 0
  pricePerSecurityIncident := 1
  humanSOCAnalysts := 0
  humanSOCManager := 0
  humanSOCEngineer := 0
  humanSOCDirector := 0
  legacySIEMPricePerGB := 0
  stellarXDRCostPerGB := 0
  switchFromLegacySIEM := true
  logVolumePerIncident := 0
  monthlyLogVolumeGB := 0
  stellarXDRPlatformCosts := 0
  siemLicensingCosts := 1200

/-- Counterexample to claim C2 as stated: at `c2Input` the ROI percentage is
0 although the autonomous-SOC annual cost is nonzero (the annual savings are
exactly 0), so `roiPercentage = 0` is not equivalent to
`autonomousSOCAnnualCost = 0`. -/
theorem c2_counterexample :
    (calculateROI c2Input).roiPercentage = 0 ∧
    (calculateROI c2Input).autonomousSOCTotalCost ≠ 0 := by
  constructor <;>
    norm_num [calculateROI, calculateEfficiencyImprovement,
      calculateIncidentResponseImprovement, c2Input]

/-- Claim C2 (amended): `roiPercentage` is 0 exactly when the autonomous-SOC
annual cost (`securityIncidentsPerMonth * pricePerSecurityIncident * 12`) is
0 or the annual savings are 0; when the cost is nonzero the ROI percentage
is `annualSavings / autonomousSOCAnnualCost * 100`. -/
theorem c2_roi_zero_guard (i : CalculationInputs) :
    (calculateROI i).autonomousSOCTotalCost
      = i.securityIncidentsPerMonth * i.pricePerSecurityIncident * 12 ∧
    ((calculateROI i).roiPercentage = 0 ↔
      (calculateROI i).autonomousSOCTotalCost = 0 ∨ (calculateROI i).annualSavings = 0) ∧
    ((calculateROI i).autonomousSOCTotalCost ≠ 0 →
      (calculateROI i).roiPercentage
        = (calculateROI i).annualSavings / (calculateROI i).autonomousSOCTotalCost * 100) := by
  refine ⟨rfl, ?_, ?_⟩
  · show (if i.securityIncidentsPerMonth * i.pricePerSecurityIncident * 12 = 0 then (0:ℚ)
        else (calculateROI i).annualSavings /
          (i.securityIncidentsPerMonth * i.pricePerSecurityIncident * 12) * 100) = 0 ↔ _
    by_cases hA : i.securityIncidentsPerMonth * i.pricePerSecurityIncident * 12 = 0
    · rw [if_pos hA]
      exact iff_of_true rfl (Or.inl hA)
    · rw [if_neg hA]
      constructor
      · intro h
        rcases mul_eq_zero.1 h with h' | h'
        · exact Or.inr ((div_eq_zero_iff.1 h').resolve_right hA)
        · exact absurd h' (by norm_num)
      · rintro (h | h)
        · exact absurd h hA
        · rw [show (calculateROI i).annualSavings = 0 from h, zero_div, zero_mul]
  · intro hA
    show (if i.securityIncidentsPerMonth * i.pricePerSecurityIncident * 12 = 0 then (0:ℚ)
        else (calculateROI i).annualSavings /
          (i.securityIncidentsPerMonth * i.pricePerSecurityIncident * 12) * 100) = _
    rw [if_neg (show ¬ i.securityIncidentsPerMonth * i.pricePerSecurityIncident * 12 = 0
      from fun h => hA h)]
    rfl

/-- Witness for C2 at the default input record, whose autonomous-SOC annual
cost is nonzero. -/
theorem c2_witness :
    (calculateROI defaultInputs).autonomousSOCTotalCost ≠ 0 ∧
    (calculateROI defaultInputs).roiPercentage
      = (calculateROI defaultInputs).annualSavings /
        (calculateROI defaultInputs).autonomousSOCTotalCost * 100 := by
  have hA : (calculateROI defaultInputs).autonomousSOCTotalCost ≠ 0 := by
    norm_num [calculateROI, defaultInputs, calculateComputedFields, baseInputs,
      jsRound, jsCeil, ceil_as_floor]
  exact ⟨hA, (c2_roi_zero_guard defaultInputs).2.2 hA⟩

lemma default_ratio_eq :
    defaultInputs.securityIncidentsPerMonth / defaultInputs.employeeCount = 24/5 := by
  norm_num [defaultInputs, calculateComputedFields, baseInputs, jsRound]

lemma employeeCount_edit_incidents (i : CalculationInputs) (e : ℚ) :
    (handleInputChange i FieldName.employeeCount (FieldValue.num e)).securityIncidentsPerMonth
      = (jsRound (e * (24/5)) : ℚ) := by
  simp [handleInputChange, setField, FieldValue.toNumber, default_ratio_eq]

lemma incidents_edit_employeeCount (i : CalculationInputs) (v : ℚ) :
    (handleInputChange i FieldName.securityIncidentsPerMonth (FieldValue.num v)).employeeCount
      = (jsRound (v / (24/5)) : ℚ) := by
  simp [handleInputChange, setField, FieldValue.toNumber, default_ratio_eq]

lemma jsRound_ratio_round_trip_exact (n : ℤ) :
    jsRound ((jsRound ((n : ℚ) * (24/5)) : ℚ) / (24/5)) = n := by
  have h1 : ((jsRound ((n : ℚ) * (24/5)) : ℤ) : ℚ) ≤ (n : ℚ) * (24/5) + 1/2 := jsRound_le _
  have h2 : (n : ℚ) * (24/5) - 1/2 < ((jsRound ((n : ℚ) * (24/5)) : ℤ) : ℚ) := lt_jsRound _
  set I : ℤ := jsRound ((n : ℚ) * (24/5)) with hI
  have hdiv : (I : ℚ) / (24/5) = (I : ℚ) * 5 / 24 := by ring
  unfold jsRound
  rw [Int.floor_eq_iff, hdiv]
  constructor
  · linarith
  · linarith

lemma jsRound_ratio_round_trip_close (e : ℚ) :
    |((jsRound ((jsRound (e * (24/5)) : ℚ) / (24/5)) : ℤ) : ℚ) - e| < 1 := by
  have h1 : ((jsRound (e * (24/5)) : ℤ) : ℚ) ≤ e * (24/5) + 1/2 := jsRound_le _
  have h2 : e * (24/5) - 1/2 < ((jsRound (e * (24/5)) : ℤ) : ℚ) := lt_jsRound _
  set I : ℤ := jsRound (e * (24/5)) with hI
  have h3 : ((jsRound ((I : ℚ) / (24/5)) : ℤ) : ℚ) ≤ (I : ℚ) / (24/5) + 1/2 := jsRound_le _
  have h4 : (I : ℚ) / (24/5) - 1/2 < ((jsRound ((I : ℚ) / (24/5)) : ℤ) : ℚ) := lt_jsRound _
  set r : ℤ := jsRound ((I : ℚ) / (24/5)) with hr
  have hdiv : (I : ℚ) / (24/5) = (I : ℚ) * 5 / 24 := by ring
  rw [hdiv] at h3 h4
  rw [abs_lt]
  constructor <;> linarith

/-- Claim C4: editing `employeeCount` to `e > 0` sets
`securityIncidentsPerMonth = round(e * K)` with `K = 4.8`, and an inverse
edit of `securityIncidentsPerMonth` to the resulting incident count brings
`employeeCount` back to `e` within integer-rounding tolerance (strictly
closer than one unit), exactly when `e` is an integer. -/
theorem c4_employee_incident_round_trip (i : CalculationInputs) (e : ℚ) (he : 0 < e) :
    (handleInputChange i FieldName.employeeCount (FieldValue.num e)).securityIncidentsPerMonth
      = (jsRound (e * 4.8) : ℚ) ∧
    |(handleInputChange (handleInputChange i FieldName.employeeCount (FieldValue.num e))
        FieldName.securityIncidentsPerMonth
        (FieldValue.num ((handleInputChange i FieldName.employeeCount
          (FieldValue.num e)).securityIncidentsPerMonth))).employeeCount - e| < 1 ∧
    ∀ n : ℤ, e = (n : ℚ) →
      (handleInputChange (handleInputChange i FieldName.employeeCount (FieldValue.num e))
        FieldName.securityIncidentsPerMonth
        (FieldValue.num ((handleInputChange i FieldName.employeeCount
          (FieldValue.num e)).securityIncidentsPerMonth))).employeeCount = e := by
  have hK : (4.8 : ℚ) = 24/5 := by norm_num
  refine ⟨?_, ?_, ?_⟩
  · rw [employeeCount_edit_incidents, hK]
  · rw [incidents_edit_employeeCount, employeeCount_edit_incidents]
    exact jsRound_ratio_round_trip_close e
  · intro n hn
    rw [incidents_edit_employeeCount, employeeCount_edit_incidents, hn]
    exact_mod_cast congrArg (fun z : ℤ => (z : ℚ)) (jsRound_ratio_round_trip_exact n)

/-- Witness for C4 at the default input record with an employee count of
500: the derived incident count and the exact integer round trip. -/
theorem c4_witness :
    (handleInputChange defaultInputs FieldName.employeeCount
        (FieldValue.num 500)).securityIncidentsPerMonth = (jsRound ((500 : ℚ) * 4.8) : ℚ) ∧
    (handleInputChange (handleInputChange defaultInputs FieldName.employeeCount (FieldValue.num 500))
        FieldName.securityIncidentsPerMonth
        (FieldValue.num ((handleInputChange defaultInputs FieldName.employeeCount
          (FieldValue.num 500)).securityIncidentsPerMonth))).employeeCount = 500 := by
  have h := c4_employee_incident_round_trip defaultInputs 500 (by norm_num)
  exact ⟨h.1, h.2.2 500 (by norm_num)⟩

lemma efficiency_lower (i : CalculationInputs)
    (h1 : 0 ≤ i.falsePositiveRate) (h2 : 0 ≤ i.averageIncidentResponseTime)
    (h3 : 0 ≤ i.monthlyLogVolumeGB) :
    38 ≤ calculateEfficiencyImprovement i := by
  unfold calculateEfficiencyImprovement
  have t1 : (0:ℚ) ≤ min (i.falsePositiveRate * 0.2) 15 :=
    le_min (by nlinarith) (by norm_num)
  have t2 : (0:ℚ) ≤ min (i.averageIncidentResponseTime * 3) 25 :=
    le_min (by nlinarith) (by norm_num)
  have t3 : (0:ℚ) ≤ min (max 0 (i.monthlyLogVolumeGB - 1024) * 0.001) 15 :=
    le_min (by positivity) (by norm_num)
  exact le_min (by linarith) (by norm_num)

lemma improvement_lower (i : CalculationInputs)
    (h1 : 0 ≤ i.falsePositiveRate) (h2 : 0 ≤ i.averageIncidentResponseTime) :
    45 ≤ calculateIncidentResponseImprovement i := by
  unfold calculateIncidentResponseImprovement
  have t1 : (0:ℚ) ≤ min (i.averageIncidentResponseTime * 2) 15 :=
    le_min (by nlinarith) (by norm_num)
  have t2 : (0:ℚ) ≤ min (i.falsePositiveRate * 0.15) 8 :=
    le_min (by nlinarith) (by norm_num)
  exact le_min (by linarith) (by norm_num)

lemma efficiency_mono (i j : CalculationInputs)
    (hfp : i.falsePositiveRate ≤ j.falsePositiveRate)
    (hart : i.averageIncidentResponseTime ≤ j.averageIncidentResponseTime)
    (hlog : i.monthlyLogVolumeGB ≤ j.monthlyLogVolumeGB) :
    calculateEfficiencyImprovement i ≤ calculateEfficiencyImprovement j := by
  unfold calculateEfficiencyImprovement
  apply min_le_min _ le_rfl
  have t1 : min (i.falsePositiveRate * 0.2) 15 ≤ min (j.falsePositiveRate * 0.2) 15 :=
    min_le_min (by nlinarith) le_rfl
  have t2 : min (i.averageIncidentResponseTime * 3) 25
      ≤ min (j.averageIncidentResponseTime * 3) 25 :=
    min_le_min (by nlinarith) le_rfl
  have t3 : min (max 0 (i.monthlyLogVolumeGB - 1024) * 0.001) 15
      ≤ min (max 0 (j.monthlyLogVolumeGB - 1024) * 0.001) 15 := by
    refine min_le_min ?_ le_rfl
    have := max_le_max (le_refl (0:ℚ)) (show i.monthlyLogVolumeGB - 1024 ≤ j.monthlyLogVolumeGB - 1024 by linarith)
    nlinarith [this]
  linarith

lemma improvement_mono (i j : CalculationInputs)
    (hfp : i.falsePositiveRate ≤ j.falsePositiveRate)
    (hart : i.averageIncidentResponseTime ≤ j.averageIncidentResponseTime) :
    calculateIncidentResponseImprovement i ≤ calculateIncidentResponseImprovement j := by
  unfold calculateIncidentResponseImprovement
  apply min_le_min _ le_rfl
  have t1 : min (i.averageIncidentResponseTime * 2) 15
      ≤ min (j.averageIncidentResponseTime * 2) 15 :=
    min_le_min (by nlinarith) le_rfl
  have t2 : min (i.falsePositiveRate * 0.15) 8 ≤ min (j.falsePositiveRate * 0.15) 8 :=
    min_le_min (by nlinarith) le_rfl
  linarith

/-- Claim C5: for non-negative `falsePositiveRate`,
`averageIncidentResponseTime` and `monthlyLogVolumeGB`, the efficiency
improvement lies in [38, 80], the incident-response improvement lies in
[45, 80], and both are monotonically non-decreasing in those three inputs. -/
theorem c5_improvement_bounds_monotone (i : CalculationInputs)
    (h1 : 0 ≤ i.falsePositiveRate) (h2 : 0 ≤ i.averageIncidentResponseTime)
    (h3 : 0 ≤ i.monthlyLogVolumeGB) :
    (38 ≤ (calculateROI i).efficiencyImprovement ∧
      (calculateROI i).efficiencyImprovement ≤ 80) ∧
    (45 ≤ (calculateROI i).incidentResponseImprovement ∧
      (calculateROI i).incidentResponseImprovement ≤ 80) ∧
    ∀ j : CalculationInputs,
      i.falsePositiveRate ≤ j.falsePositiveRate →
      i.averageIncidentResponseTime ≤ j.averageIncidentResponseTime →
      i.monthlyLogVolumeGB ≤ j.monthlyLogVolumeGB →
      (calculateROI i).efficiencyImprovement ≤ (calculateROI j).efficiencyImprovement ∧
      (calculateROI i).incidentResponseImprovement
        ≤ (calculateROI j).incidentResponseImprovement := by
  refine ⟨⟨efficiency_lower i h1 h2 h3, ?_⟩, ⟨improvement_lower i h1 h2, ?_⟩, ?_⟩
  · exact min_le_right _ _
  · exact min_le_right _ _
  · intro j hfp hart hlog
    exact ⟨efficiency_mono i j hfp hart hlog, improvement_mono i j hfp hart⟩

/-- Witness for C5 at the default input record. -/
theorem c5_witness :
    (38 ≤ (calculateROI defaultInputs).efficiencyImprovement ∧
      (calculateROI defaultInputs).efficiencyImprovement ≤ 80) ∧
    (45 ≤ (calculateROI defaultInputs).incidentResponseImprovement ∧
      (calculateROI defaultInputs).incidentResponseImprovement ≤ 80) := by
  have h := c5_improvement_bounds_monotone defaultInputs
    (by norm_num [defaultInputs, calculateComputedFields, baseInputs])
    (by norm_num [defaultInputs, calculateComputedFields, baseInputs])
    (by norm_num [defaultInputs, calculateComputedFields, baseInputs, jsRound])
  exact ⟨h.1, h.2.1⟩

/-- The hypothesis of claim C6: every numeric field of the record is
non-negative and the false-positive rate is a percentage in [0, 100]. -/
def nonnegNumericInputs (i : CalculationInputs) : Prop :=
  0 ≤ i.employeeCount ∧ 0 ≤ i.securityIncidentsPerMonth ∧
  0 ≤ i.averageIncidentResponseTime ∧
  (0 ≤ i.falsePositiveRate ∧ i.falsePositiveRate ≤ 100) ∧
  0 ≤ i.pricePerSecurityIncident ∧ 0 ≤ i.humanSOCAnalysts ∧
  0 ≤ i.humanSOCManager ∧ 0 ≤ i.humanSOCEngineer ∧ 0 ≤ i.humanSOCDirector ∧
  0 ≤ i.legacySIEMPricePerGB ∧ 0 ≤ i.stellarXDRCostPerGB ∧
  0 ≤ i.logVolumePerIncident ∧ 0 ≤ i.monthlyLogVolumeGB ∧
  0 ≤ i.stellarXDRPlatformCosts ∧ 0 ≤ i.siemLicensingCosts

instance (i : CalculationInputs) : Decidable (nonnegNumericInputs i) := by
  unfold nonnegNumericInputs
  infer_instance

lemma valueMetrics_nonneg (i : CalculationInputs)
    (hinc : 0 ≤ i.securityIncidentsPerMonth) (hana : 0 ≤ i.humanSOCAnalysts)
    (hart : 0 ≤ i.averageIncidentResponseTime) (hemp : 0 ≤ i.employeeCount)
    (hfp5 : 5 ≤ i.falsePositiveRate) (hfp100 : i.falsePositiveRate ≤ 100) :
    0 ≤ (calculateValueMetrics i).falsePositiveReduction ∧
    0 ≤ (calculateValueMetrics i).riskReduction ∧
    0 ≤ (calculateValueMetrics i).productivityImprovement ∧
    0 ≤ (calculateValueMetrics i).incidentResponseTime ∧
    0 ≤ (calculateValueMetrics i).analystRetention ∧
    0 ≤ (calculateValueMetrics i).complianceEfficiency ∧
    0 ≤ (calculateValueMetrics i).threatIntelligence ∧
    0 ≤ (calculateValueMetrics i).automationValue ∧
    0 ≤ (calculateValueMetrics i).stressReduction ∧
    0 ≤ (calculateValueMetrics i).shiftCoverage := by
  simp only [calculateValueMetrics]
  refine ⟨?_, ?_, ?_, ?_, ?_, ?_, ?_, ?_, ?_, ?_⟩
  · nlinarith [mul_nonneg hinc (show (0:ℚ) ≤ i.falsePositiveRate / 100 - 0.05 by linarith)]
  · linarith
  · linarith
  · nlinarith [mul_nonneg hinc hart]
  · linarith
  · linarith
  · linarith
  · linarith
  · linarith
  · linarith

lemma valueMetricsAlt_nonneg (i : CalculationInputs)
    (hinc : 0 ≤ i.securityIncidentsPerMonth) (hana : 0 ≤ i.humanSOCAnalysts)
    (hart : 0 ≤ i.averageIncidentResponseTime)
    (hfp5 : 5 ≤ i.falsePositiveRate) (hfp100 : i.falsePositiveRate ≤ 100) :
    0 ≤ (calculateValueMetricsAlt i).falsePositiveReduction ∧
    0 ≤ (calculateValueMetricsAlt i).riskReduction ∧
    0 ≤ (calculateValueMetricsAlt i).productivityImprovement ∧
    0 ≤ (calculateValueMetricsAlt i).incidentResponseTime ∧
    0 ≤ (calculateValueMetricsAlt i).analystRetention ∧
    0 ≤ (calculateValueMetricsAlt i).complianceEfficiency ∧
    0 ≤ (calculateValueMetricsAlt i).stressReduction ∧
    0 ≤ (calculateValueMetricsAlt i).shiftCoverage := by
  simp only [calculateValueMetricsAlt]
  refine ⟨?_, ?_, ?_, ?_, ?_, ?_, ?_, ?_⟩
  · nlinarith [mul_nonneg hinc (show (0:ℚ) ≤ i.falsePositiveRate / 100 - 0.05 by linarith)]
  · nlinarith [mul_nonneg hinc (show (0:ℚ) ≤ 1 - i.falsePositiveRate / 100 by linarith)]
  · linarith
  · nlinarith [mul_nonneg (mul_nonneg hinc
        (show (0:ℚ) ≤ 1 - i.falsePositiveRate / 100 by linarith)) hart,
      mul_nonneg hinc (show (0:ℚ) ≤ i.falsePositiveRate by linarith)]
  · linarith
  · linarith
  · linarith
  · linarith

/-- The default record with the false-positive rate set to 0: all numeric
fields non-negative, rate inside [0, 100]. -/
def c6Input : CalculationInputs := { defaultInputs with falsePositiveRate := 0 }

/-- Counterexample to claim C6 as stated: `c6Input` satisfies the claim's
hypotheses, yet its value-category breakdown contains an entry (the
false-positive-reduction value) with a strictly negative value. -/
theorem c6_counterexample :
    nonnegNumericInputs c6Input ∧ ∃ c ∈ valueCategories c6Input, c.value < 0 := by
  constructor
  · refine ⟨?_, ?_, ?_, ⟨?_, ?_⟩, ?_, ?_, ?_, ?_, ?_, ?_, ?_, ?_, ?_, ?_, ?_⟩ <;>
      norm_num [c6Input, defaultInputs, calculateComputedFields, baseInputs,
        jsRound, jsCeil, ceil_as_floor]
  · refine ⟨ValueCategory.mk "False Positive Reduction"
        ((calculateValueMetrics c6Input).falsePositiveReduction)
        "Reduced analyst burnout and wasted time", ?_, ?_⟩
    · simp [valueCategories, mem_sortByValueDesc]
    · norm_num [calculateValueMetrics, c6Input, defaultInputs,
        calculateComputedFields, baseInputs, jsRound, jsCeil, ceil_as_floor]

/-- Claim C6 (amended): for every input record whose numeric fields are
non-negative with `falsePositiveRate` in [5, 100], every entry of the
value-category breakdown (in both variants) has a non-negative currency
value; below a rate of 5 the false-positive-reduction entry can go
negative. -/
theorem c6_breakdown_nonneg (i : CalculationInputs)
    (h : nonnegNumericInputs i) (h5 : 5 ≤ i.falsePositiveRate) :
    (∀ c ∈ valueCategories i, 0 ≤ c.value) ∧
    (∀ c ∈ valueCategoriesAlt i, 0 ≤ c.value) := by
  obtain ⟨hemp, hinc, hart, ⟨hfp0, hfp100⟩, hprice, hana, hmgr, heng, hdir,
    hleg, hxdr, hlvr, hlog, hxdrc, hsiem⟩ := h
  have m1 := valueMetrics_nonneg i hinc hana hart hemp h5 hfp100
  have m2 := valueMetricsAlt_nonneg i hinc hana hart h5 hfp100
  constructor
  · intro c hc
    simp only [valueCategories, mem_sortByValueDesc, List.mem_cons,
      List.not_mem_nil, or_false] at hc
    rcases hc with rfl | rfl | rfl | rfl | rfl | rfl | rfl | rfl | rfl | rfl
    · exact m1.1
    · exact m1.2.1
    · exact m1.2.2.1
    · exact m1.2.2.2.1
    · exact m1.2.2.2.2.1
    · exact m1.2.2.2.2.2.1
    · exact m1.2.2.2.2.2.2.1
    · exact m1.2.2.2.2.2.2.2.1
    · exact m1.2.2.2.2.2.2.2.2.1
    · exact m1.2.2.2.2.2.2.2.2.2
  · intro c hc
    simp only [valueCategoriesAlt, mem_sortByValueDesc, List.mem_cons,
      List.not_mem_nil, or_false] at hc
    rcases hc with rfl | rfl | rfl | rfl | rfl | rfl | rfl | rfl
    · exact m2.1
    · exact m2.2.1
    · exact m2.2.2.1
    · exact m2.2.2.2.1
    · exact m2.2.2.2.2.1
    · exact m2.2.2.2.2.2.1
    · exact m2.2.2.2.2.2.2.1
    · exact m2.2.2.2.2.2.2.2

/-- Witness for C6 at the default input record (false-positive rate 90). -/
theorem c6_witness :
    nonnegNumericInputs defaultInputs ∧ (5:ℚ) ≤ defaultInputs.falsePositiveRate ∧
    List.Forall (fun c => 0 ≤ c.value) (valueCategories defaultInputs) ∧
    List.Forall (fun c => 0 ≤ c.value) (valueCategoriesAlt defaultInputs) := by
  have h1 : nonnegNumericInputs defaultInputs := by
    refine ⟨?_, ?_, ?_, ⟨?_, ?_⟩, ?_, ?_, ?_, ?_, ?_, ?_, ?_, ?_, ?_, ?_, ?_⟩ <;>
      norm_num [defaultInputs, calculateComputedFields, baseInputs,
        jsRound, jsCeil, ceil_as_floor]
  have h2 : (5:ℚ) ≤ defaultInputs.falsePositiveRate := by
    norm_num [defaultInputs, calculateComputedFields, baseInputs]
  have h := c6_breakdown_nonneg defaultInputs h1 h2
  exact ⟨h1, h2, List.forall_iff_forall_mem.2 h.1, List.forall_iff_forall_mem.2 h.2⟩

lemma shares_sum_aux (l : List ValueCategory) (T : ℚ) :
    (l.map (fun c => c.value / T * 100)).sum = (l.map (fun c => c.value)).sum / T * 100 := by
  induction l with
  | nil => simp
  | cons a l ih =>
    simp only [List.map_cons, List.sum_cons, ih]
    ring

lemma shares_sum (l : List ValueCategory) (T : ℚ) (hT : T ≠ 0)
    (hsum : (l.map (fun c => c.value)).sum = T) :
    (l.map (fun c => c.value / T * 100)).sum = 100 := by
  rw [shares_sum_aux, hsum, div_self hT, one_mul]

lemma sum_values_valueCategories (i : CalculationInputs) :
    ((valueCategories i).map (fun c => c.value)).sum = totalValue (calculateValueMetrics i) := by
  simp only [valueCategories, sum_map_sortByValueDesc, List.map_cons, List.map_nil,
    List.sum_cons, List.sum_nil, totalValue]
  ring

lemma sum_values_valueCategoriesAlt (i : CalculationInputs) :
    ((valueCategoriesAlt i).map (fun c => c.value)).sum
      = totalValueAlt (calculateValueMetricsAlt i) := by
  simp only [valueCategoriesAlt, sum_map_sortByValueDesc, List.map_cons, List.map_nil,
    List.sum_cons, List.sum_nil, totalValueAlt]
  ring

/-- Claim C8: whenever the breakdown total is strictly positive, the
percentage shares `value / totalValue * 100` of the value-category entries
sum to exactly 100 (exact rational arithmetic), in both variants. -/
theorem c8_percentage_shares_sum (i : CalculationInputs)
    (h : 0 < totalValue (calculateValueMetrics i))
    (hAlt : 0 < totalValueAlt (calculateValueMetricsAlt i)) :
    ((valueCategories i).map
      (fun c => c.value / totalValue (calculateValueMetrics i) * 100)).sum = 100 ∧
    ((valueCategoriesAlt i).map
      (fun c => c.value / totalValueAlt (calculateValueMetricsAlt i) * 100)).sum = 100 :=
  ⟨shares_sum _ _ (ne_of_gt h) (sum_values_valueCategories i),
   shares_sum _ _ (ne_of_gt hAlt) (sum_values_valueCategoriesAlt i)⟩

/-- Witness for C8 at the default input record, whose breakdown totals are
strictly positive. -/
theorem c8_witness :
    ((valueCategories defaultInputs).map
      (fun c => c.value / totalValue (calculateValueMetrics defaultInputs) * 100)).sum = 100 ∧
    ((valueCategoriesAlt defaultInputs).map
      (fun c => c.value / totalValueAlt (calculateValueMetricsAlt defaultInputs) * 100)).sum
      = 100 :=
  c8_percentage_shares_sum defaultInputs
    (by norm_num [totalValue, calculateValueMetrics, defaultInputs,
      calculateComputedFields, baseInputs, jsRound, jsCeil, ceil_as_floor])
    (by norm_num [totalValueAlt, calculateValueMetricsAlt, defaultInputs,
      calculateComputedFields, baseInputs, jsRound, jsCeil, ceil_as_floor])

end ROICalc
